import Mathlib

/-!
# DeepVariance training-job orchestrator — verification development

Shallow embedding of the DeepVariance training pipeline (repository
`deepvariance/deepvariance`).  The backend control logic is documented in
`src/unnamed/part_006` (implementation status document, which contains the
verbatim `select_strategy` source) and in the specification; the frontend
TypeScript lives under `src/dv-frontend` and `src/unnamed/part_016`,
`src/unnamed/part_017`.

Conventions: Python / TypeScript numbers become `ℚ` (accuracies, rates) or
`ℕ` (counters); optional / nullable fields become `Option`; exceptions
become `Except`.
-/

/-- Optimizer choices, §3 of the spec: `optimizer ∈ {Adam, SGD, RMSprop}`;
also the `optimizer` union type in `src/unnamed/part_017`. -/
inductive Optimizer where
  | Adam
  | SGD
  | RMSprop
deriving DecidableEq

/-- Printable optimizer name, as it appears in the TS union type. -/
def Optimizer.asString : Optimizer → String
  | .Adam => "Adam"
  | .SGD => "SGD"
  | .RMSprop => "RMSprop"

/-- A partial hyperparameter set: every field optional, as in the
`HyperparametersConfig` interface of `src/unnamed/part_017` plus the
`dropout_rate` and `epochs` knobs of spec §3.  Used both for caller-supplied
overrides and for strategy defaults. -/
structure HyperparametersConfig where
  learning_rate : Option ℚ := none
  batch_size : Option ℕ := none
  optimizer : Option Optimizer := none
  dropout_rate : Option ℚ := none
  epochs : Option ℕ := none
  max_iterations : Option ℕ := none
  target_accuracy : Option ℚ := none
deriving DecidableEq

/-- Error raised by the merge when a merged value falls outside its declared
range (spec §4.1), carrying the offending field name. -/
inductive MergeError where
  | validationError (field : String)
deriving DecidableEq

/-- Range check for `learning_rate ∈ (0,1]` (spec §3). -/
def lrInRange (q : ℚ) : Bool := 0 < q && q ≤ 1

/-- Range check for `batch_size ∈ [1,512]` (spec §3). -/
def batchInRange (n : ℕ) : Bool := 1 ≤ n && n ≤ 512

/-- Range check for `dropout_rate ∈ [0,0.9]` (spec §3). -/
def dropoutInRange (q : ℚ) : Bool := 0 ≤ q && q ≤ 9/10

/-- Range check for `epochs ∈ [1,100]` (spec §3). -/
def epochsInRange (n : ℕ) : Bool := 1 ≤ n && n ≤ 100

/-- Range check for `max_iterations ∈ [1,50]` (spec §3). -/
def maxIterInRange (n : ℕ) : Bool := 1 ≤ n && n ≤ 50

/-- Range check for `target_accuracy ∈ [0,1]` (spec §3). -/
def targetAccInRange (q : ℚ) : Bool := 0 ≤ q && q ≤ 1

/-- A present value must be in range; an absent one passes. -/
def okOpt (ok : α → Bool) : Option α → Bool
  | none => true
  | some v => ok v

/-- Three-level precedence for one field: the user override wins, otherwise
the strategy default, otherwise the global default (spec §4.1). -/
def pick (user strat glob : Option α) : Option α :=
  (user.orElse fun _ => strat).orElse fun _ => glob

/-- Fieldwise combination of the three hyperparameter sets under the
user > strategy > global precedence of spec §4.1. -/
def mergedFields (defaults strategyDefaults userOverrides : HyperparametersConfig) :
    HyperparametersConfig where
  learning_rate :=
    pick userOverrides.learning_rate strategyDefaults.learning_rate defaults.learning_rate
  batch_size := pick userOverrides.batch_size strategyDefaults.batch_size defaults.batch_size
  optimizer := pick userOverrides.optimizer strategyDefaults.optimizer defaults.optimizer
  dropout_rate :=
    pick userOverrides.dropout_rate strategyDefaults.dropout_rate defaults.dropout_rate
  epochs := pick userOverrides.epochs strategyDefaults.epochs defaults.epochs
  max_iterations :=
    pick userOverrides.max_iterations strategyDefaults.max_iterations defaults.max_iterations
  target_accuracy :=
    pick userOverrides.target_accuracy strategyDefaults.target_accuracy defaults.target_accuracy

/-- All present fields of a merged set are inside their declared ranges. -/
def validHyperparameters (h : HyperparametersConfig) : Bool :=
  okOpt lrInRange h.learning_rate &&
  okOpt batchInRange h.batch_size &&
  okOpt dropoutInRange h.dropout_rate &&
  okOpt epochsInRange h.epochs &&
  okOpt maxIterInRange h.max_iterations &&
  okOpt targetAccInRange h.target_accuracy

/-- Modelled from the spec: `_merge_hyperparameters` of
`training_pipeline/orchestrator.py` is described in `src/unnamed/part_006`
(lines 324–329, 357–361) but its body is not under `src/`; spec §4.1 gives
the contract.  `merge(defaults, strategy_defaults, user_overrides)` applies
the user > strategy > global precedence fieldwise and fails with
`ValidationError` when a merged value falls outside its declared range. -/
def mergeHyperparameters (defaults strategyDefaults userOverrides : HyperparametersConfig) :
    Except MergeError HyperparametersConfig :=
  let m := mergedFields defaults strategyDefaults userOverrides
  if !okOpt lrInRange m.learning_rate then .error (.validationError "learning_rate")
  else if !okOpt batchInRange m.batch_size then .error (.validationError "batch_size")
  else if !okOpt dropoutInRange m.dropout_rate then .error (.validationError "dropout_rate")
  else if !okOpt epochsInRange m.epochs then .error (.validationError "epochs")
  else if !okOpt maxIterInRange m.max_iterations then .error (.validationError "max_iterations")
  else if !okOpt targetAccInRange m.target_accuracy then
    .error (.validationError "target_accuracy")
  else .ok m

/-- The immutable request bundle (spec §3, `TrainingConfig` dataclass of
`training_pipeline/base.py` as documented in `src/unnamed/part_006`): dataset
reference with domain and task, model identity, strategy selector, optional
caller hyperparameters, and whether oracle (GROQ) credentials are present. -/
structure TrainingConfig where
  dataset_id : String
  domain : String
  task : String
  model_id : String
  strategy : String
  hyperparameters : HyperparametersConfig
  has_oracle_key : Bool

/-- A registered training strategy: its name and cheap compatibility check
(`BaseTrainingStrategy` of `training_pipeline/base.py` as quoted in
`src/unnamed/part_006`; only `name` and `validate` matter for selection). -/
structure Strategy where
  name : String
  validate : TrainingConfig → Bool

/-- The distinct `ValueError`s raised by `select_strategy`
(`src/unnamed/part_006` lines 333–349): a named strategy that cannot handle
the config, a name matching no registered strategy, and the auto path
finding no suitable strategy.  The spec calls the first
`UnsupportedStrategyError` and the last `NoStrategyAvailableError`. -/
inductive SelectError where
  | unsupportedStrategy (name : String)
  | unknownStrategy (name : String)
  | noStrategyAvailable
deriving DecidableEq

/-- Python's `name.lower().startswith(requested.lower())`, embedded on the
character lists of the two strings. -/
def nameMatches (requested name : String) : Bool :=
  (requested.data.map Char.toLower).isPrefixOf (name.data.map Char.toLower)

/-- The explicit-name path of `select_strategy`: scan the registered
strategies in order for the first whose lowercased name starts with the
lowercased requested name; validate it or fail, and fail with
`unknownStrategy` when no name matches (the `for` loop of
`src/unnamed/part_006` lines 335–342). -/
def findNamedStrategy (requested : String) (cfg : TrainingConfig) :
    List Strategy → Except SelectError Strategy
  | [] => .error (.unknownStrategy requested)
  | s :: rest =>
    if nameMatches requested s.name then
      if s.validate cfg then .ok s
      else .error (.unsupportedStrategy requested)
    else findNamedStrategy requested cfg rest

/-- The auto path of `select_strategy`: first registered strategy whose
`validate` accepts the config (`src/unnamed/part_006` lines 344–349). -/
def autoSelect (cfg : TrainingConfig) : List Strategy → Except SelectError Strategy
  | [] => .error .noStrategyAvailable
  | s :: rest => if s.validate cfg then .ok s else autoSelect cfg rest

/-- `TrainingOrchestrator.select_strategy` (`src/unnamed/part_006` lines
333–349).  Python truthiness: `config.strategy and config.strategy != 'auto'`
takes the explicit path exactly when the selector is a non-empty string
other than `auto`. -/
def select_strategy (strategies : List Strategy) (cfg : TrainingConfig) :
    Except SelectError Strategy :=
  if cfg.strategy ≠ "" && cfg.strategy ≠ "auto" then
    findNamedStrategy cfg.strategy cfg strategies
  else
    autoSelect cfg strategies

/-- Strategy defaults: `get_default_hyperparameters(config)` of
`BaseTrainingStrategy` (`src/unnamed/part_006` lines 303–306), a pure
function of the config.  Added alongside `Strategy` for the merge step. -/
def Strategy.defaultHyperparameters (_s : Strategy) (_cfg : TrainingConfig) :
    HyperparametersConfig := {}

/-- One point-in-time progress report (spec §3 `ProgressEvent`, the
`ProgressUpdate` dataclass of `training_pipeline/base.py`). -/
structure ProgressEvent where
  iteration : ℕ
  current_accuracy : ℚ
  best_accuracy : ℚ
  status : String
deriving DecidableEq

/-- What one propose→train→evaluate iteration of the LLM-guided loop can
produce: oracle retries exhausted, the proposed architecture failed to
train, or a trained model with its validation accuracy and the
hyperparameters actually used for that run (the oracle may vary them per
iteration, spec §4.3 step 4). -/
inductive IterOutcome where
  | oracleFailure
  | trainingFailure
  | trained (accuracy : ℚ) (hyperparameters : HyperparametersConfig)

/-- Terminal state of the refinement loop: number of iterations attempted,
the best recorded outcome (accuracy and the hyperparameters used for that
run), and the emitted progress events in order. -/
structure LoopResult where
  itersAttempted : ℕ
  best : Option (ℚ × HyperparametersConfig)
  events : List ProgressEvent
deriving DecidableEq

/-- Modelled from the spec: the iterative refinement loop of
`training_pipeline/core/llm_training.py` (`run_llm_training`) is not under
`src/`; this follows spec §4.3 steps 3a–3g.  `fuel` is the remaining
iteration budget (`max_iterations - iteration`), `i` the iteration index,
`best` the best recorded outcome, `evs` the events emitted so far.
Cancellation is observed at the loop boundary; oracle and training failures
abandon the iteration, not the job; a trained iteration updates the best
(`updateBest`: replaced only when strictly exceeded, §4.3 step 3e), emits a
`ProgressEvent` carrying the tracked best accuracy, and the loop stops
early once the best reaches the target (step 3f). -/
def updateBest (best : Option (ℚ × HyperparametersConfig)) (acc : ℚ)
    (hp : HyperparametersConfig) : ℚ × HyperparametersConfig :=
  match best with
  | none => (acc, hp)
  | some (b, bhp) => if b < acc then (acc, hp) else (b, bhp)

def loopAux (env : ℕ → IterOutcome) (cancel : ℕ → Bool) (target : ℚ) :
    ℕ → ℕ → Option (ℚ × HyperparametersConfig) → List ProgressEvent → LoopResult
  | 0, i, best, evs => ⟨i, best, evs⟩
  | fuel + 1, i, best, evs =>
    if cancel i then ⟨i, best, evs⟩
    else
      match env i with
      | .oracleFailure => loopAux env cancel target fuel (i + 1) best evs
      | .trainingFailure => loopAux env cancel target fuel (i + 1) best evs
      | .trained acc hp =>
        if target ≤ (updateBest best acc hp).1 then
          ⟨i + 1, some (updateBest best acc hp),
            evs ++ [⟨i, acc, (updateBest best acc hp).1, "training"⟩]⟩
        else
          loopAux env cancel target fuel (i + 1) (some (updateBest best acc hp))
            (evs ++ [⟨i, acc, (updateBest best acc hp).1, "training"⟩])

/-- Modelled from the spec: entry point of the §4.3 loop — start at
iteration 0 with no best outcome and no events, with an iteration budget of
`max_iterations`. -/
def runRefinementLoop (env : ℕ → IterOutcome) (cancel : ℕ → Bool)
    (maxIterations : ℕ) (target : ℚ) : LoopResult :=
  loopAux env cancel target maxIterations 0 none []

/-- Terminal result of one training execution (spec §3 `TrainingOutcome`,
the `TrainingResult` dataclass of `training_pipeline/base.py`): success
flag, artifact location, achieved accuracy, the hyperparameters actually
used, optional failure detail. -/
structure TrainingResult where
  success : Bool
  model_path : Option String
  accuracy : Option ℚ
  hyperparameters : Option HyperparametersConfig
  error_message : Option String
deriving DecidableEq

/-- Modelled from the spec: terminal step of §4.3 (step 4) — if a best
outcome exists return success with its artifact path (`src/unnamed/part_006`
line 179: `./models/best_model_{model_id}.py`), achieved accuracy and the
hyperparameters actually used for that best run; otherwise return failure
with a descriptive reason. -/
def loopToResult (model_id : String) (r : LoopResult) : TrainingResult :=
  match r.best with
  | some (acc, hp) =>
    { success := true
      model_path := some ("./models/best_model_" ++ model_id ++ ".py")
      accuracy := some acc
      hyperparameters := some hp
      error_message := none }
  | none =>
    { success := false
      model_path := none
      accuracy := none
      hyperparameters := none
      error_message := some "no iteration produced a usable model" }

/-- Modelled from the spec: `LLMStrategy.train` (not under `src/`) runs the
§4.3 refinement loop with the merged hyperparameters; the iteration budget
and target come from the merged set (UI defaults 10 and 1.0 appear in
`src/dv-frontend/src/features/training/TrainingRunnerPage.tsx`). -/
def llmTrain (env : ℕ → IterOutcome) (cancel : ℕ → Bool) (model_id : String)
    (merged : HyperparametersConfig) : TrainingResult :=
  loopToResult model_id
    (runRefinementLoop env cancel (merged.max_iterations.getD 10)
      (merged.target_accuracy.getD 1))

/-- Job lifecycle states (spec §4.5, `status` union of the `TrainingJob`
interface in `src/unnamed/part_017`). -/
inductive JobStatus where
  | pending
  | running
  | completed
  | failed
  | cancelled
deriving DecidableEq

/-- `completed`, `failed` and `cancelled` are terminal (spec §4.5). -/
def JobStatus.isTerminal : JobStatus → Bool
  | .completed => true
  | .failed => true
  | .cancelled => true
  | _ => false

/-- The events that drive the job state machine: orchestrator dispatch,
successful outcome, unrecoverable outcome, explicit cancel request. -/
inductive JobTransition where
  | start
  | complete
  | fail
  | cancelRequest
deriving DecidableEq

/-- Modelled from the spec: the job state machine of §4.5 (its backend
implementation, `training_runner.py` and `routers/jobs.py`, is not under
`src/`; `src/unnamed/part_006` lines 208–214 record the same transitions).
`pending → running` on dispatch, `running → completed/failed` on outcome,
`pending|running → cancelled` on cancel; no transition leaves a terminal
state. -/
def jobStep : JobStatus → JobTransition → JobStatus
  | .pending, .start => .running
  | .running, .complete => .completed
  | .running, .fail => .failed
  | .pending, .cancelRequest => .cancelled
  | .running, .cancelRequest => .cancelled
  | s, _ => s

/-- Modelled from the spec: the cancel endpoint handler is not under `src/`
(`src/unnamed/part_017` lines 179–181 hold only the frontend client and
`src/unnamed/part_006` lines 216–221 list the endpoint); spec §4.5 and §6:
cancelling transitions a `pending`/`running` job to `cancelled`, is
idempotent, and on an already-terminal job is a no-op that still reports
success. -/
def cancelJob (s : JobStatus) : JobStatus × Bool :=
  if s.isTerminal then (s, true) else (jobStep s .cancelRequest, true)

/-- Model lifecycle states (`src/unnamed/part_006` line 123: draft, queued,
training, ready, active, failed). -/
inductive ModelStatus where
  | draft
  | queued
  | training
  | ready
  | active
  | failed
deriving DecidableEq

/-- The persistent job record (spec §3 `Job`, `jobs` table and the
`TrainingJob` interface of `src/unnamed/part_017`; only the fields the
claims touch). -/
structure JobRecord where
  id : ℕ
  dataset_id : String
  model_id : String
  status : JobStatus
  error_message : Option String
deriving DecidableEq

/-- The owning model record (`models` table, `src/unnamed/part_006` §3):
status, tags, and the persisted hyperparameters JSONB field. -/
structure ModelRecord where
  id : String
  name : String
  task : String
  status : ModelStatus
  tags : List String
  hyperparameters : Option HyperparametersConfig
deriving DecidableEq

/-- Human-readable messages of the three `select_strategy` errors
(`src/unnamed/part_006` lines 341, 342, 349). -/
def selectErrorMessage : SelectError → String
  | .unsupportedStrategy n => "Strategy " ++ n ++ " cannot handle this configuration"
  | .unknownStrategy n => "Unknown strategy: " ++ n
  | .noStrategyAvailable => "No suitable training strategy found"

/-- Modelled from the spec: the `POST /api/jobs` handler of
`routers/jobs.py` is not under `src/`; per `src/unnamed/part_006` (lines
216–221 and 579–582) the endpoint creates the job record and passes the
strategy to the orchestrator — strategy validation happens during
orchestration, not at submission.  Submission therefore always produces a
new `pending` job record. -/
def submitJob (cfg : TrainingConfig) (nextId : ℕ) : JobRecord :=
  { id := nextId
    dataset_id := cfg.dataset_id
    model_id := cfg.model_id
    status := .pending
    error_message := none }

/-- Modelled from the spec: hyperparameter persistence step 4 of
`src/unnamed/part_006` (lines 367–371) — after a successful training the
runner updates the model with the hyperparameters of `TrainingResult`
(the actually-used set) and marks it ready; on failure the model is marked
failed. -/
def persistOutcome (model : ModelRecord) (r : TrainingResult) : ModelRecord :=
  if r.success then { model with status := .ready, hyperparameters := r.hyperparameters }
  else { model with status := .failed }

/-- Modelled from the spec: `run_training_job` of `training_runner.py` is
not under `src/`; per `src/unnamed/part_006` (lines 197–214, 352–371) it
marks the job running, selects a strategy via the orchestrator, merges
hyperparameters, trains, and persists the outcome; an orchestration error
(unknown/unsupported strategy, invalid hyperparameters) marks the job
failed with the error message.  The training step is abstracted as `train`
on the selected strategy and the merged set. -/
def runTrainingJob (strategies : List Strategy) (cfg : TrainingConfig)
    (globalDefaults : HyperparametersConfig)
    (train : Strategy → HyperparametersConfig → TrainingResult)
    (job : JobRecord) (model : ModelRecord) : JobRecord × ModelRecord :=
  let job1 := { job with status := jobStep job.status .start }
  match select_strategy strategies cfg with
  | .error e =>
    ({ job1 with
        status := jobStep job1.status .fail
        error_message := some (selectErrorMessage e) },
     { model with status := .failed })
  | .ok s =>
    match mergeHyperparameters globalDefaults (s.defaultHyperparameters cfg)
        cfg.hyperparameters with
    | .error (.validationError f) =>
      ({ job1 with
          status := jobStep job1.status .fail
          error_message := some ("Invalid hyperparameter: " ++ f) },
       { model with status := .failed })
    | .ok merged =>
      let r := train s merged
      if r.success then
        ({ job1 with status := jobStep job1.status .complete }, persistOutcome model r)
      else
        ({ job1 with
            status := jobStep job1.status .fail
            error_message := r.error_message },
         persistOutcome model r)

/-- `LLMStrategy.validate` as documented in `src/unnamed/part_006` (lines
311–314, 486): vision domain, classification task, GROQ API key present. -/
def llmValidate (cfg : TrainingConfig) : Bool :=
  cfg.domain = "vision" && cfg.task = "classification" && cfg.has_oracle_key

/-- The one registered strategy (`src/unnamed/part_006` lines 265–268: only
`llm_strategy.py` is implemented; native and transfer are not started). -/
def llmStrategy : Strategy :=
  { name := "LLMStrategy", validate := llmValidate }

/-- Raw dataset payload as it arrives from the server: `size`, `path` and
`tags` may be null (`Dataset` interface of
`src/dv-frontend/src/features/training/TrainingRunnerPage.tsx`
lines 964–978, nullability noted in its comments). -/
structure RawDataset where
  id : String
  name : String
  domain : String
  size : Option ℕ
  readiness : String
  storage : String
  path : Option String
  tags : Option (List String)
  description : Option String
  created_at : String
  updated_at : String
  last_modified : Option String
  freshness : Option String
deriving DecidableEq

/-- A sanitized dataset: `size`, `path` and `tags` are always present. -/
structure Dataset where
  id : String
  name : String
  domain : String
  size : ℕ
  readiness : String
  storage : String
  path : String
  tags : List String
  description : Option String
  created_at : String
  updated_at : String
  last_modified : Option String
  freshness : Option String
deriving DecidableEq

/-- `sanitizeDataset` (`TrainingRunnerPage.tsx` lines 989–999): spread the
raw record, defaulting a null `size` to 0, a null `path` to the empty
string and null `tags` to the empty array; `description`, `last_modified`
and `freshness` keep their possibly-null values. -/
def sanitizeDataset (d : RawDataset) : Dataset where
  id := d.id
  name := d.name
  domain := d.domain
  size := d.size.getD 0
  readiness := d.readiness
  storage := d.storage
  path := d.path.getD ""
  tags := d.tags.getD []
  description := d.description
  created_at := d.created_at
  updated_at := d.updated_at
  last_modified := d.last_modified
  freshness := d.freshness

/-- `getDatasets` (`TrainingRunnerPage.tsx` lines 1004–1010): fetch the
list and sanitize each element. -/
def getDatasets (serverData : List RawDataset) : List Dataset :=
  serverData.map sanitizeDataset

/-- `getDataset` (`TrainingRunnerPage.tsx` lines 1015–1018): fetch one
dataset and sanitize it. -/
def getDataset (serverData : RawDataset) : Dataset :=
  sanitizeDataset serverData

/-- The model fields the training page reads (`Model` interface of the
frontend API layer; the page uses `name`, `task`, `status`, `tags`). -/
structure Model where
  id : String
  name : String
  task : String
  status : String
  tags : List String
deriving DecidableEq

/-- `TrainingJob` interface of `src/unnamed/part_017` (lines 111–133),
restricted to the fields the training page reads. -/
structure TrainingJob where
  id : String
  dataset_id : String
  status : String
  progress : ℚ
  current_iteration : ℕ
  total_iterations : ℕ
  current_accuracy : Option ℚ
  best_accuracy : Option ℚ
  current_loss : Option ℚ
  best_loss : Option ℚ
  precision : Option ℚ
  «recall» : Option ℚ
  f1_score : Option ℚ
  hyperparameters : HyperparametersConfig
  elapsed_time : Option String
  estimated_remaining : Option String
deriving DecidableEq

/-- The record the page renders: union of the mock object's keys
(`TrainingRunnerPage.tsx` lines 46–66) and the real-data branch's keys
(lines 101–135); keys present in only one branch are optional. -/
structure TrainingView where
  modelName : String
  task : String
  status : String
  currentIteration : ℕ
  totalIterations : ℕ
  progress : ℚ
  currentLoss : Option ℚ
  lossDelta : Option ℚ
  bestLoss : Option ℚ
  accuracy : Option ℚ
  validationAccuracy : Option ℚ
  precision : Option ℚ
  «recall» : Option ℚ
  f1Score : Option ℚ
  learningRate : ℚ
  batchSize : ℕ
  epochs : Option ℕ
  optimizer : Option String
  dropoutRate : Option ℚ
  maxIterations : Option ℕ
  targetAccuracy : Option ℚ
  elapsedTime : String
  estimatedRemaining : String
  datasetName : String
  datasetSize : String
  hasRealData : Bool
deriving DecidableEq

/-- The hard-coded `mockTrainingData` constant (`TrainingRunnerPage.tsx`
lines 46–66): fabricated values such as 94.2 % accuracy, iteration 15/50
and the model name `credit-risk-classifier`.  Decimal literals are written
as exact fractions (0.234 = 117/500, −0.012 = −3/250, 94.2 = 471/5, …). -/
def mockTrainingData : TrainingView where
  modelName := "credit-risk-classifier"
  task := "classification"
  status := "training"
  currentIteration := 15
  totalIterations := 50
  progress := 30
  currentLoss := some (117/500)
  lossDelta := some (-(3/250))
  bestLoss := none
  accuracy := some (471/5)
  validationAccuracy := some (464/5)
  precision := some (921/10)
  «recall» := some (953/10)
  f1Score := some (937/10)
  learningRate := 1/1000
  batchSize := 32
  epochs := none
  optimizer := none
  dropoutRate := none
  maxIterations := none
  targetAccuracy := none
  elapsedTime := "14m 32s"
  estimatedRemaining := "34m 8s"
  datasetName := "credit-default-2023"
  datasetSize := "125,000 samples"
  hasRealData := false

/-- JS truthiness in the page's percent scaling,
`job.current_accuracy ? job.current_accuracy * 100 : null`: both null and 0
map to null. -/
def truthyScale100 : Option ℚ → Option ℚ
  | some a => if a = 0 then none else some (a * 100)
  | none => none

/-- JS `value || fallback` on a nullable string: null and the empty string
both fall back. -/
def orString (o : Option String) (fallback : String) : String :=
  match o with
  | some s => if s = "" then fallback else s
  | none => fallback

/-- The real-data branch of the page's `data` computation
(`TrainingRunnerPage.tsx` lines 103–131). -/
def realTrainingView (m : Model) (j : TrainingJob) (dataset : Option Dataset) :
    TrainingView where
  modelName := m.name
  task := m.task
  status := m.status
  currentIteration := j.current_iteration
  totalIterations := j.total_iterations
  progress := j.progress
  currentLoss := j.current_loss
  lossDelta := none
  bestLoss := j.best_loss
  accuracy := truthyScale100 j.current_accuracy
  validationAccuracy := truthyScale100 j.best_accuracy
  precision := truthyScale100 j.precision
  «recall» := truthyScale100 j.«recall»
  f1Score := truthyScale100 j.f1_score
  learningRate := j.hyperparameters.learning_rate.getD (1/1000)
  batchSize := j.hyperparameters.batch_size.getD 32
  epochs := some j.total_iterations
  optimizer := some (j.hyperparameters.optimizer.getD .Adam).asString
  dropoutRate := some (j.hyperparameters.dropout_rate.getD (1/5))
  maxIterations := some (j.hyperparameters.max_iterations.getD 10)
  targetAccuracy := some (j.hyperparameters.target_accuracy.getD 1)
  elapsedTime := orString j.elapsed_time "0s"
  estimatedRemaining := orString j.estimated_remaining "0s"
  datasetName := orString (m.tags.find? fun t => t ≠ m.task) "Unknown"
  datasetSize :=
    match dataset with
    | some d => if d.size = 0 then "N/A" else toString d.size ++ " samples"
    | none => "N/A"
  hasRealData := true

/-- The page's `data` value (`TrainingRunnerPage.tsx` lines 101–135):
`model && job ? { ...real } : { ...mockTrainingData, hasRealData: false }`. -/
def trainingPageData (model : Option Model) (job : Option TrainingJob)
    (dataset : Option Dataset) : TrainingView :=
  match model, job with
  | some m, some j => realTrainingView m j dataset
  | _, _ => { mockTrainingData with hasRealData := false }

/-- What the page renders. -/
inductive RenderedPage where
  | loadingSpinner
  | errorAlert (message : String)
  | trainingView (data : TrainingView)
deriving DecidableEq

/-- The render logic of `TrainingRunnerPage` (`TrainingRunnerPage.tsx`
lines 162–201): a loader while loading, an error alert on error, otherwise
the training view built from `trainingPageData`. -/
def renderTrainingRunnerPage (isLoading : Bool) (error : Option String)
    (model : Option Model) (job : Option TrainingJob)
    (dataset : Option Dataset) : RenderedPage :=
  if isLoading then .loadingSpinner
  else
    match error with
    | some e => .errorAlert e
    | none => .trainingView (trainingPageData model job dataset)

lemma findNamedStrategy_of_find? (requested : String) (cfg : TrainingConfig) :
    ∀ (l : List Strategy) (s : Strategy),
      l.find? (fun t => nameMatches requested t.name) = some s →
      findNamedStrategy requested cfg l =
        if s.validate cfg then .ok s else .error (.unsupportedStrategy requested)
  | [], s => by simp
  | a :: rest, s => by
    intro h
    by_cases ha : nameMatches requested a.name
    · rw [List.find?_cons_of_pos (p := fun t => nameMatches requested t.name) rest ha] at h
      cases h
      simp [findNamedStrategy, ha]
    · rw [List.find?_cons_of_neg (p := fun t => nameMatches requested t.name) rest ha] at h
      simp only [findNamedStrategy, ha, if_false]
      exact findNamedStrategy_of_find? requested cfg rest s h

lemma autoSelect_eq_find? (cfg : TrainingConfig) :
    ∀ l : List Strategy,
      autoSelect cfg l =
        match l.find? (fun t => t.validate cfg) with
        | some t => .ok t
        | none => .error .noStrategyAvailable
  | [] => by simp [autoSelect]
  | a :: rest => by
    by_cases ha : a.validate cfg
    · rw [List.find?_cons_of_pos (p := fun t => t.validate cfg) rest ha]
      simp [autoSelect, ha]
    · rw [List.find?_cons_of_neg (p := fun t => t.validate cfg) rest (by simpa using ha)]
      simp only [autoSelect, ha, if_false]
      exact autoSelect_eq_find? cfg rest

/-- C1: if `config.strategy` names a concrete registered strategy (the
first registered strategy whose lowercased name starts with it), the
orchestrator returns that strategy when its `validate(config)` is true and
fails with the unsupported-strategy error otherwise; if `config.strategy`
is `auto`, it returns the first registered strategy, in registration order,
whose `validate(config)` is true, and fails with the
no-strategy-available error when none validates. -/
theorem select_strategy_spec (strategies : List Strategy) (cfg : TrainingConfig)
    (s : Strategy) :
    (cfg.strategy ≠ "" → cfg.strategy ≠ "auto" →
      strategies.find? (fun t => nameMatches cfg.strategy t.name) = some s →
      select_strategy strategies cfg =
        if s.validate cfg then .ok s else .error (.unsupportedStrategy cfg.strategy)) ∧
    (cfg.strategy = "auto" →
      select_strategy strategies cfg =
        match strategies.find? (fun t => t.validate cfg) with
        | some t => .ok t
        | none => .error .noStrategyAvailable) := by
  constructor
  · intro h1 h2 hfind
    rw [select_strategy, if_pos (by simp [h1, h2])]
    exact findNamedStrategy_of_find? cfg.strategy cfg strategies s hfind
  · intro h
    rw [select_strategy, if_neg (by simp [h])]
    exact autoSelect_eq_find? cfg strategies

/-- A concrete request that names the LLM strategy explicitly. -/
def cfgLLMExplicit : TrainingConfig where
  dataset_id := "ds-1"
  domain := "vision"
  task := "classification"
  model_id := "m-1"
  strategy := "llm"
  hyperparameters := {}
  has_oracle_key := true

theorem select_strategy_spec_witness :
    select_strategy [llmStrategy] cfgLLMExplicit = .ok llmStrategy := by
  have hfind : [llmStrategy].find? (fun t => nameMatches cfgLLMExplicit.strategy t.name)
      = some llmStrategy :=
    List.find?_cons_of_pos _ (by decide)
  have h := (select_strategy_spec [llmStrategy] cfgLLMExplicit llmStrategy).1
    (by decide) (by decide) hfind
  rw [h, if_pos (by decide)]

/-- The global defaults of the merge-precedence example (spec §8). -/
def exampleDefaults : HyperparametersConfig := { learning_rate := some (1/1000) }

/-- The strategy defaults of the merge-precedence example (spec §8). -/
def exampleStrategyDefaults : HyperparametersConfig :=
  { learning_rate := some (1/100), batch_size := some 32 }

/-- The user overrides of the merge-precedence example (spec §8). -/
def exampleUserOverrides : HyperparametersConfig := { batch_size := some 64 }

/-- C2: the merge takes, for every field, the user override when present,
otherwise the strategy default, otherwise the global default (the `pick`
characterisation and the fieldwise equations); it fails with a
`ValidationError` exactly when a merged value falls outside its declared
range; and on the spec §8 example it yields
`{lr := 0.01, batch_size := 64}`. -/
theorem mergeHyperparameters_spec (d s u : HyperparametersConfig) :
    ((mergedFields d s u).learning_rate
        = pick u.learning_rate s.learning_rate d.learning_rate ∧
      (mergedFields d s u).batch_size = pick u.batch_size s.batch_size d.batch_size ∧
      (mergedFields d s u).optimizer = pick u.optimizer s.optimizer d.optimizer ∧
      (mergedFields d s u).dropout_rate = pick u.dropout_rate s.dropout_rate d.dropout_rate ∧
      (mergedFields d s u).epochs = pick u.epochs s.epochs d.epochs ∧
      (mergedFields d s u).max_iterations
        = pick u.max_iterations s.max_iterations d.max_iterations ∧
      (mergedFields d s u).target_accuracy
        = pick u.target_accuracy s.target_accuracy d.target_accuracy) ∧
    (∀ (α : Type) (uo so go : Option α) (v : α),
      (uo = some v → pick uo so go = some v) ∧
      (uo = none → so = some v → pick uo so go = some v) ∧
      (uo = none → so = none → pick uo so go = go)) ∧
    (validHyperparameters (mergedFields d s u) = true →
      mergeHyperparameters d s u = .ok (mergedFields d s u)) ∧
    (validHyperparameters (mergedFields d s u) = false →
      ∃ f, mergeHyperparameters d s u = .error (.validationError f)) ∧
    mergeHyperparameters exampleDefaults exampleStrategyDefaults exampleUserOverrides
      = .ok { learning_rate := some (1/100), batch_size := some 64 } := by
  refine ⟨⟨rfl, rfl, rfl, rfl, rfl, rfl, rfl⟩, ?_, ?_, ?_, ?_⟩
  · intro α uo so go v
    refine ⟨?_, ?_, ?_⟩
    · intro h
      simp [pick, h, Option.orElse]
    · intro h1 h2
      simp [pick, h1, h2, Option.orElse]
    · intro h1 h2
      simp [pick, h1, h2, Option.orElse]
  · intro h
    simp only [validHyperparameters, Bool.and_eq_true] at h
    obtain ⟨⟨⟨⟨⟨h1, h2⟩, h3⟩, h4⟩, h5⟩, h6⟩ := h
    simp [mergeHyperparameters, h1, h2, h3, h4, h5, h6]
  · intro h
    cases e1 : okOpt lrInRange (mergedFields d s u).learning_rate
    · exact ⟨"learning_rate", by simp [mergeHyperparameters, e1]⟩
    cases e2 : okOpt batchInRange (mergedFields d s u).batch_size
    · exact ⟨"batch_size", by simp [mergeHyperparameters, e1, e2]⟩
    cases e3 : okOpt dropoutInRange (mergedFields d s u).dropout_rate
    · exact ⟨"dropout_rate", by simp [mergeHyperparameters, e1, e2, e3]⟩
    cases e4 : okOpt epochsInRange (mergedFields d s u).epochs
    · exact ⟨"epochs", by simp [mergeHyperparameters, e1, e2, e3, e4]⟩
    cases e5 : okOpt maxIterInRange (mergedFields d s u).max_iterations
    · exact ⟨"max_iterations", by simp [mergeHyperparameters, e1, e2, e3, e4, e5]⟩
    cases e6 : okOpt targetAccInRange (mergedFields d s u).target_accuracy
    · exact ⟨"target_accuracy", by simp [mergeHyperparameters, e1, e2, e3, e4, e5, e6]⟩
    · simp [validHyperparameters, e1, e2, e3, e4, e5, e6] at h
  · have hv : validHyperparameters
        (mergedFields exampleDefaults exampleStrategyDefaults exampleUserOverrides) = true := by
      norm_num [validHyperparameters, mergedFields, pick, okOpt, lrInRange, batchInRange,
        exampleDefaults, exampleStrategyDefaults, exampleUserOverrides, Option.orElse]
    have hm : mergedFields exampleDefaults exampleStrategyDefaults exampleUserOverrides
        = { learning_rate := some (1/100), batch_size := some 64 } := by
      simp [mergedFields, pick, exampleDefaults, exampleStrategyDefaults,
        exampleUserOverrides, Option.orElse]
    have h2 : mergeHyperparameters exampleDefaults exampleStrategyDefaults exampleUserOverrides
        = .ok (mergedFields exampleDefaults exampleStrategyDefaults exampleUserOverrides) := by
      simp only [validHyperparameters, Bool.and_eq_true] at hv
      obtain ⟨⟨⟨⟨⟨h1, h2⟩, h3⟩, h4⟩, h5⟩, h6⟩ := hv
      simp [mergeHyperparameters, h1, h2, h3, h4, h5, h6]
    rw [h2, hm]

theorem mergeHyperparameters_spec_witness :
    mergeHyperparameters exampleDefaults exampleStrategyDefaults exampleUserOverrides
      = .ok { learning_rate := some (1/100), batch_size := some 64 } :=
  (mergeHyperparameters_spec exampleDefaults exampleStrategyDefaults
    exampleUserOverrides).2.2.2.2

lemma loopAux_itersAttempted_le (env : ℕ → IterOutcome) (cancel : ℕ → Bool) (target : ℚ) :
    ∀ (fuel i : ℕ) (best : Option (ℚ × HyperparametersConfig)) (evs : List ProgressEvent),
      (loopAux env cancel target fuel i best evs).itersAttempted ≤ i + fuel
  | 0, i, best, evs => by simp [loopAux]
  | fuel + 1, i, best, evs => by
    rw [loopAux]
    by_cases hc : cancel i = true
    · rw [if_pos hc]
      dsimp only
      omega
    · rw [if_neg hc]
      cases henv : env i with
      | oracleFailure =>
        dsimp only
        have h := loopAux_itersAttempted_le env cancel target fuel (i + 1) best evs
        omega
      | trainingFailure =>
        dsimp only
        have h := loopAux_itersAttempted_le env cancel target fuel (i + 1) best evs
        omega
      | trained acc hp =>
        dsimp only
        split
        · dsimp only
          omega
        · have h := loopAux_itersAttempted_le env cancel target fuel (i + 1)
            (some (updateBest best acc hp))
            (evs ++ [⟨i, acc, (updateBest best acc hp).1, "training"⟩])
          omega

/-- C3: the refinement loop attempts at most `max_iterations` iterations,
whatever the oracle outcomes, training outcomes, achieved accuracies,
cancellation pattern and target are. -/
theorem refinementLoop_bounded (env : ℕ → IterOutcome) (cancel : ℕ → Bool)
    (maxIterations : ℕ) (target : ℚ) :
    (runRefinementLoop env cancel maxIterations target).itersAttempted ≤ maxIterations := by
  have h := loopAux_itersAttempted_le env cancel target maxIterations 0 none []
  simpa [runRefinementLoop] using h

lemma le_updateBest_fst (best : Option (ℚ × HyperparametersConfig)) (acc : ℚ)
    (hp : HyperparametersConfig) : acc ≤ (updateBest best acc hp).1 := by
  cases best with
  | none => simp [updateBest]
  | some p =>
    obtain ⟨b, bhp⟩ := p
    by_cases hb : b < acc
    · simp [updateBest, hb]
    · simp only [updateBest, hb, if_false]
      exact le_of_not_lt hb

lemma fst_le_updateBest (b : ℚ) (bhp : HyperparametersConfig) (acc : ℚ)
    (hp : HyperparametersConfig) : b ≤ (updateBest (some (b, bhp)) acc hp).1 := by
  by_cases hb : b < acc
  · simp only [updateBest, hb, if_true]
    exact le_of_lt hb
  · simp [updateBest, hb]

lemma loopAux_early_stop (env : ℕ → IterOutcome) (cancel : ℕ → Bool) (target : ℚ)
    (k : ℕ) (acc : ℚ) (hp : HyperparametersConfig)
    (hk : env k = .trained acc hp) (ht : target ≤ acc) :
    ∀ (fuel i : ℕ) (best : Option (ℚ × HyperparametersConfig)) (evs : List ProgressEvent),
      i ≤ k → (loopAux env cancel target fuel i best evs).itersAttempted ≤ k + 1
  | 0, i, best, evs => by
    intro hi
    simp only [loopAux]
    omega
  | fuel + 1, i, best, evs => by
    intro hi
    rw [loopAux]
    by_cases hc : cancel i = true
    · rw [if_pos hc]
      dsimp only
      omega
    · rw [if_neg hc]
      cases henv : env i with
      | oracleFailure =>
        dsimp only
        have hik : i ≠ k := by
          intro e
          rw [e, hk] at henv
          cases henv
        exact loopAux_early_stop env cancel target k acc hp hk ht fuel (i + 1) best evs
          (by omega)
      | trainingFailure =>
        dsimp only
        have hik : i ≠ k := by
          intro e
          rw [e, hk] at henv
          cases henv
        exact loopAux_early_stop env cancel target k acc hp hk ht fuel (i + 1) best evs
          (by omega)
      | trained acc' hp' =>
        dsimp only
        by_cases hik : i = k
        · subst hik
          rw [hk] at henv
          injection henv with h1 h2
          subst h1
          subst h2
          rw [if_pos (le_trans ht (le_updateBest_fst best acc hp))]
        · split
          · dsimp only
            omega
          · exact loopAux_early_stop env cancel target k acc hp hk ht fuel (i + 1)
              (some (updateBest best acc' hp'))
              (evs ++ [⟨i, acc', (updateBest best acc' hp').1, "training"⟩]) (by omega)

/-- C4: if iteration `k` trains a model whose accuracy reaches the target
accuracy, the loop stops early — no iteration `k + 1` is ever attempted,
whatever else the environment does. -/
theorem refinementLoop_early_stop (env : ℕ → IterOutcome) (cancel : ℕ → Bool)
    (maxIterations : ℕ) (target : ℚ) (k : ℕ) (acc : ℚ) (hp : HyperparametersConfig)
    (hk : env k = .trained acc hp) (ht : target ≤ acc) :
    (runRefinementLoop env cancel maxIterations target).itersAttempted ≤ k + 1 :=
  loopAux_early_stop env cancel target k acc hp hk ht maxIterations 0 none []
    (Nat.zero_le k)

/-- An environment whose iteration 0 reaches accuracy 1/2 and whose
iteration 1 reaches 3/4. -/
def envEarlyStop : ℕ → IterOutcome := fun n =>
  if n = 0 then .trained (1/2) {} else .trained (3/4) {}

theorem refinementLoop_early_stop_witness :
    (runRefinementLoop envEarlyStop (fun _ => false) 5 (3/4)).itersAttempted ≤ 1 + 1 :=
  refinementLoop_early_stop envEarlyStop (fun _ => false) 5 (3/4) 1 (3/4) {} rfl
    (le_refl _)

lemma loopAux_events_pairwise (env : ℕ → IterOutcome) (cancel : ℕ → Bool) (target : ℚ) :
    ∀ (fuel i : ℕ) (best : Option (ℚ × HyperparametersConfig)) (evs : List ProgressEvent),
      ((evs.map ProgressEvent.best_accuracy).Pairwise (· ≤ ·)) →
      (∀ e ∈ evs, ∀ b bhp, best = some (b, bhp) → e.best_accuracy ≤ b) →
      (best = none → evs = []) →
      ((loopAux env cancel target fuel i best evs).events.map
        ProgressEvent.best_accuracy).Pairwise (· ≤ ·)
  | 0, i, best, evs => by
    intro h1 _ _
    simpa [loopAux] using h1
  | fuel + 1, i, best, evs => by
    intro h1 h2 h3
    rw [loopAux]
    by_cases hc : cancel i = true
    · rw [if_pos hc]
      exact h1
    · rw [if_neg hc]
      cases henv : env i with
      | oracleFailure =>
        dsimp only
        exact loopAux_events_pairwise env cancel target fuel (i + 1) best evs h1 h2 h3
      | trainingFailure =>
        dsimp only
        exact loopAux_events_pairwise env cancel target fuel (i + 1) best evs h1 h2 h3
      | trained acc hp =>
        dsimp only
        have hall : ∀ e ∈ evs, e.best_accuracy ≤ (updateBest best acc hp).1 := by
          intro e he
          cases best with
          | none =>
            rw [h3 rfl] at he
            cases he
          | some p =>
            obtain ⟨b, bhp⟩ := p
            exact le_trans (h2 e he b bhp rfl) (fst_le_updateBest b bhp acc hp)
        have hpair : (((evs ++
            [(⟨i, acc, (updateBest best acc hp).1, "training"⟩ : ProgressEvent)]).map
            ProgressEvent.best_accuracy).Pairwise (· ≤ ·)) := by
          rw [List.map_append, List.pairwise_append]
          refine ⟨h1, by simp, ?_⟩
          intro x hx y hy
          simp only [List.map_cons, List.map_nil, List.mem_singleton] at hy
          subst hy
          obtain ⟨e, he, rfl⟩ := List.mem_map.1 hx
          exact hall e he
        split
        · exact hpair
        · refine loopAux_events_pairwise env cancel target fuel (i + 1)
            (some (updateBest best acc hp))
            (evs ++ [⟨i, acc, (updateBest best acc hp).1, "training"⟩]) hpair ?_ ?_
          · intro e he b bhp hsome
            injection hsome with hsome
            have hb : b = (updateBest best acc hp).1 := by rw [hsome]
            rw [hb]
            rcases List.mem_append.1 he with hin | hin
            · exact hall e hin
            · simp only [List.mem_singleton] at hin
              subst hin
              exact le_refl _
          · intro hnone
            cases hnone

/-- C5: the `best_accuracy` values carried by the progress events of one
job run are monotonically non-decreasing across successive events, even
when the current accuracy of an iteration dips below a prior one. -/
theorem progressEvents_best_accuracy_monotone (env : ℕ → IterOutcome)
    (cancel : ℕ → Bool) (maxIterations : ℕ) (target : ℚ) :
    ((runRefinementLoop env cancel maxIterations target).events.map
      ProgressEvent.best_accuracy).Pairwise (· ≤ ·) :=
  loopAux_events_pairwise env cancel target maxIterations 0 none []
    (by simp) (by simp) (fun _ => rfl)

/-- C6: a cancel request on a job in a terminal state leaves the state
unchanged and still reports success; no transition of any kind leaves a
terminal state; and cancelling twice — from any starting state — is a
no-op the second time and reports success both times. -/
theorem cancel_terminal_idempotent (s : JobStatus) :
    (s.isTerminal = true →
      (∀ t, jobStep s t = s) ∧ cancelJob s = (s, true)) ∧
    cancelJob (cancelJob s).1 = ((cancelJob s).1, true) ∧
    (cancelJob s).2 = true := by
  refine ⟨?_, ?_, ?_⟩
  · intro h
    constructor
    · intro t
      cases s <;> cases t <;> first
        | rfl
        | exact absurd h (by simp [JobStatus.isTerminal])
    · cases s <;> simp_all [cancelJob, JobStatus.isTerminal]
  · cases s <;> simp [cancelJob, jobStep, JobStatus.isTerminal]
  · cases s <;> simp [cancelJob, jobStep, JobStatus.isTerminal]

theorem cancel_terminal_idempotent_witness :
    cancelJob JobStatus.completed = (JobStatus.completed, true) ∧
    cancelJob (cancelJob JobStatus.completed).1
      = ((cancelJob JobStatus.completed).1, true) :=
  ⟨((cancel_terminal_idempotent JobStatus.completed).1 rfl).2,
   (cancel_terminal_idempotent JobStatus.completed).2.1⟩

/-- A request naming the unimplemented native strategy (spec §8
Scenario D); only the LLM strategy is registered. -/
def cfgNative : TrainingConfig where
  dataset_id := "ds-1"
  domain := "vision"
  task := "classification"
  model_id := "m-1"
  strategy := "native"
  hyperparameters := {}
  has_oracle_key := true

/-- C7 (counterexample): submitting the invalid `native` configuration
does create a Job record — submission returns a `pending` job and the
strategy error only arises in `select_strategy`, which runs during
orchestration, not at submission. -/
theorem submitJob_invalid_creates_record :
    select_strategy [llmStrategy] cfgNative = .error (.unknownStrategy "native") ∧
    submitJob cfgNative 1 =
      { id := 1, dataset_id := "ds-1", model_id := "m-1",
        status := .pending, error_message := none } := by
  constructor
  · have hnm : nameMatches "native" "LLMStrategy" = false := by decide
    simp [select_strategy, cfgNative, findNamedStrategy, llmStrategy, hnm]
  · rfl

/-- C7 (amended): a submission whose configuration is invalid (for
example an unregistered `native` strategy) still creates a Job record with
status `pending`; the configuration error surfaces during background
orchestration, which marks the job `failed` and stores the error message —
not synchronously at submission. -/
theorem invalid_config_fails_during_orchestration (cfg : TrainingConfig) (n : ℕ)
    (e : SelectError) (g : HyperparametersConfig)
    (train : Strategy → HyperparametersConfig → TrainingResult) (model : ModelRecord)
    (hsel : select_strategy [llmStrategy] cfg = .error e) :
    (submitJob cfg n).status = .pending ∧
    (runTrainingJob [llmStrategy] cfg g train (submitJob cfg n) model).1.status
      = .failed ∧
    (runTrainingJob [llmStrategy] cfg g train (submitJob cfg n) model).1.error_message
      = some (selectErrorMessage e) := by
  refine ⟨rfl, ?_, ?_⟩ <;> simp [runTrainingJob, hsel, submitJob, jobStep]

/-- A training step that is never reached in the C7 scenario. -/
def trivialTrain : Strategy → HyperparametersConfig → TrainingResult := fun _ _ =>
  { success := false, model_path := none, accuracy := none, hyperparameters := none,
    error_message := none }

/-- A fresh model record. -/
def queuedModelRecord : ModelRecord :=
  { id := "m-1", name := "credit-model", task := "classification",
    status := .queued, tags := [], hyperparameters := none }

theorem invalid_config_fails_during_orchestration_witness :
    (submitJob cfgNative 1).status = .pending ∧
    (runTrainingJob [llmStrategy] cfgNative {} trivialTrain (submitJob cfgNative 1)
      queuedModelRecord).1.status = .failed := by
  have hsel : select_strategy [llmStrategy] cfgNative
      = .error (.unknownStrategy "native") := by
    have hnm : nameMatches "native" "LLMStrategy" = false := by decide
    simp [select_strategy, cfgNative, findNamedStrategy, llmStrategy, hnm]
  have h := invalid_config_fails_during_orchestration cfgNative 1
    (.unknownStrategy "native") {} trivialTrain queuedModelRecord hsel
  exact ⟨h.1, h.2.1⟩

/-- C8: when training succeeds, the hyperparameters persisted on the
owning model record are exactly the set actually used for the best run of
the refinement loop; whenever that set differs from the originally
requested one, the requested set is not what gets persisted. -/
theorem persisted_hyperparameters_actually_used (env : ℕ → IterOutcome)
    (cancel : ℕ → Bool) (model_id : String)
    (merged requested : HyperparametersConfig) (model : ModelRecord)
    (acc : ℚ) (hp : HyperparametersConfig)
    (hbest : (runRefinementLoop env cancel (merged.max_iterations.getD 10)
        (merged.target_accuracy.getD 1)).best = some (acc, hp)) :
    (llmTrain env cancel model_id merged).success = true ∧
    (llmTrain env cancel model_id merged).hyperparameters = some hp ∧
    (persistOutcome model (llmTrain env cancel model_id merged)).hyperparameters
      = some hp ∧
    (hp ≠ requested →
      (persistOutcome model (llmTrain env cancel model_id merged)).hyperparameters
        ≠ some requested) := by
  have hres : llmTrain env cancel model_id merged =
      { success := true
        model_path := some ("./models/best_model_" ++ model_id ++ ".py")
        accuracy := some acc
        hyperparameters := some hp
        error_message := none } := by
    simp [llmTrain, loopToResult, hbest]
  refine ⟨by rw [hres], by rw [hres], ?_, ?_⟩
  · rw [hres]
    simp [persistOutcome]
  · intro hne
    rw [hres]
    simpa [persistOutcome] using hne

/-- Hyperparameters the oracle actually used for the best run. -/
def hpUsedByOracle : HyperparametersConfig := { learning_rate := some (1/100) }

/-- Hyperparameters originally requested by the caller. -/
def hpRequested : HyperparametersConfig :=
  { learning_rate := some (1/1000), max_iterations := some 1 }

/-- An oracle environment that varies the hyperparameters: every iteration
trains at accuracy 4/5 with `hpUsedByOracle`. -/
def envOracleVaries : ℕ → IterOutcome := fun _ => .trained (4/5) hpUsedByOracle

theorem persisted_hyperparameters_actually_used_witness :
    (persistOutcome queuedModelRecord
      (llmTrain envOracleVaries (fun _ => false) "m-1" hpRequested)).hyperparameters
      = some hpUsedByOracle ∧
    (persistOutcome queuedModelRecord
      (llmTrain envOracleVaries (fun _ => false) "m-1" hpRequested)).hyperparameters
      ≠ some hpRequested := by
  have hbest : (runRefinementLoop envOracleVaries (fun _ => false)
      (hpRequested.max_iterations.getD 10) (hpRequested.target_accuracy.getD 1)).best
      = some (4/5, hpUsedByOracle) := by
    norm_num [hpRequested, runRefinementLoop, loopAux, envOracleVaries, updateBest]
  have h := persisted_hyperparameters_actually_used envOracleVaries (fun _ => false)
    "m-1" hpRequested hpRequested queuedModelRecord (4/5) hpUsedByOracle hbest
  refine ⟨h.2.2.1, h.2.2.2 ?_⟩
  intro he
  have hlr := congrArg HyperparametersConfig.learning_rate he
  simp only [hpUsedByOracle, hpRequested, Option.some.injEq] at hlr
  norm_num at hlr

/-- C9: whenever loading has finished without error but the model record
or the job record is unavailable, the page renders the hard-coded
`mockTrainingData` constant — fabricated values such as 94.2 % accuracy
(471/5), iteration 15 of 50 and the model name `credit-risk-classifier` —
instead of real job data. -/
theorem trainingPage_mock_fallback (model : Option Model) (job : Option TrainingJob)
    (dataset : Option Dataset) (h : model = none ∨ job = none) :
    renderTrainingRunnerPage false none model job dataset =
      .trainingView { mockTrainingData with hasRealData := false } ∧
    mockTrainingData.modelName = "credit-risk-classifier" ∧
    mockTrainingData.accuracy = some (471/5) ∧
    mockTrainingData.currentIteration = 15 ∧
    mockTrainingData.totalIterations = 50 := by
  refine ⟨?_, rfl, rfl, rfl, rfl⟩
  rcases h with h | h
  · subst h
    cases job <;> rfl
  · subst h
    cases model <;> rfl

theorem trainingPage_mock_fallback_witness :
    renderTrainingRunnerPage false none none none none =
      .trainingView { mockTrainingData with hasRealData := false } :=
  (trainingPage_mock_fallback none none none (Or.inl rfl)).1

/-- C10: every dataset returned by `getDatasets` or `getDataset` has been
passed through `sanitizeDataset`, so `size`, `path` and `tags` are always
present: a null `size` from the server becomes 0, a null `path` the empty
string, null `tags` the empty array. -/
theorem datasets_sanitized (l : List RawDataset) (raw : RawDataset) :
    getDatasets l = l.map sanitizeDataset ∧
    (∀ d ∈ getDatasets l, ∃ r ∈ l, d = sanitizeDataset r) ∧
    getDataset raw = sanitizeDataset raw ∧
    (sanitizeDataset { raw with size := none }).size = 0 ∧
    (sanitizeDataset { raw with path := none }).path = "" ∧
    (sanitizeDataset { raw with tags := none }).tags = [] ∧
    (sanitizeDataset raw).size = raw.size.getD 0 ∧
    (sanitizeDataset raw).path = raw.path.getD "" ∧
    (sanitizeDataset raw).tags = raw.tags.getD [] := by
  refine ⟨rfl, ?_, rfl, rfl, rfl, rfl, rfl, rfl, rfl⟩
  intro d hd
  simp only [getDatasets] at hd
  obtain ⟨r, hr, rfl⟩ := List.mem_map.1 hd
  exact ⟨r, hr, rfl⟩

/-- A server payload whose nullable fields are all null. -/
def rawNullDataset : RawDataset :=
  { id := "d-1", name := "cifar-subset", domain := "vision", size := none,
    readiness := "ready", storage := "local", path := none, tags := none,
    description := none, created_at := "2024-11-08", updated_at := "2024-11-08",
    last_modified := none, freshness := none }

theorem datasets_sanitized_witness :
    (sanitizeDataset { rawNullDataset with size := none }).size = 0 ∧
    (sanitizeDataset { rawNullDataset with path := none }).path = "" ∧
    (sanitizeDataset { rawNullDataset with tags := none }).tags = [] :=
  ⟨(datasets_sanitized [] rawNullDataset).2.2.2.1,
   (datasets_sanitized [] rawNullDataset).2.2.2.2.1,
   (datasets_sanitized [] rawNullDataset).2.2.2.2.2.1⟩
